import Mathlib

/-!
Shallow embedding of the solana-program-simulator crate (src/lib.rs).

The crate is a facade over an in-process simulated Solana runtime
(solana-program-test). Pure data is embedded directly; the stateful
session (ProgramSimulator plus its ProgramTestContext) is embedded as a
record threaded explicitly through each operation. Machine integers are
Nat (u8, u32, u64) and Int with explicit two-complement wrap where an
i64 addition can overflow. Fallible operations return
Except BanksClientError paired with the post-state, mirroring the Rust
Result together with the mutated borrow of self.
-/

/-- A Solana public key (opaque 32-byte value), embedded as Nat. -/
abbrev Pubkey := Nat

/-- The system program id (the all-zero key), as an opaque constant. -/
def system_program_id : Pubkey := 0

/-- The compute-budget program id, an opaque constant distinct from the
system program id. -/
def compute_budget_program_id : Pubkey := 1

/-- Little-endian byte encoding of a u32 value (4 bytes). -/
def u32_le_bytes (n : Nat) : List Nat :=
  [n % 256, n / 256 % 256, n / 65536 % 256, n / 16777216 % 256]

/-- Little-endian byte encoding of a u64 value (8 bytes). -/
def u64_le_bytes (n : Nat) : List Nat :=
  [n % 256, n / 256 % 256, n / 65536 % 256, n / 16777216 % 256,
   n / 4294967296 % 256, n / 1099511627776 % 256,
   n / 281474976710656 % 256, n / 72057594037927936 % 256]

/-- Value of a little-endian byte list. -/
def le_value : List Nat → Nat
  | [] => 0
  | b :: rest => b + 256 * le_value rest

/-- solana_sdk::account::Account: lamport balance, raw data bytes, owner,
executable flag and rent epoch. -/
structure Account where
  lamports : Nat
  data : List Nat
  owner : Pubkey
  executable : Bool
  rent_epoch : Nat
  deriving DecidableEq

/-- solana_sdk::instruction::AccountMeta. -/
structure AccountMeta where
  pubkey : Pubkey
  is_signer : Bool
  is_writable : Bool
  deriving DecidableEq

/-- solana_sdk::instruction::Instruction. -/
structure Instruction where
  program_id : Pubkey
  accounts : List AccountMeta
  data : List Nat
  deriving DecidableEq

/-- solana_sdk::signature::Keypair, reduced to the public key it signs
with (the secret key is only ever used through pubkey and sign). -/
structure Keypair where
  pubkey : Pubkey
  deriving DecidableEq

/-- A produced ed25519 signature, identified by the signing key and the
recent blockhash of the signed message (the payload that varies in this
development). -/
structure Signature where
  signer : Pubkey
  blockhash : Nat
  deriving DecidableEq, Inhabited

/-- solana_sdk::clock::Clock with its five fields. -/
structure Clock where
  slot : Nat
  epoch_start_timestamp : Int
  epoch : Nat
  leader_schedule_epoch : Nat
  unix_timestamp : Int
  deriving DecidableEq

/-- The instruction-level error of the Solana runtime. Only the variants
reachable from this crate are listed; InvalidError is the catch-all the
u64 decoding falls back to. -/
inductive InstructionError where
  | Custom (code : Nat)
  | InvalidArgument
  | InvalidInstructionData
  | InvalidAccountData
  | InvalidError
  deriving DecidableEq

/-- solana_sdk::transaction::TransactionError, restricted to a
representative set of variants (the crate only ever constructs
InstructionError). -/
inductive TransactionError where
  | InstructionError (index : Nat) (err : InstructionError)
  | AccountNotFound
  | AlreadyProcessed
  deriving DecidableEq

/-- solana_program_test::BanksClientError with its five variants; the
payloads irrelevant to this development are reduced to message strings.
ioError models the Io variant holding a propagated io::Error. -/
inductive BanksClientError where
  | ClientError (msg : String)
  | ioError (msg : String)
  | RpcError (msg : String)
  | TransactionError (e : TransactionError)
  | SimulationError (e : TransactionError)
  deriving DecidableEq

/-- True exactly on the ClientError variant of the error taxonomy. -/
def isClientErrorKind : BanksClientError → Bool
  | .ClientError _ => true
  | _ => false

/-- compute_budget::ComputeBudgetInstruction::set_compute_unit_limit:
borsh encoding of enum variant 2 (SetComputeUnitLimit) followed by the
u32 unit limit, addressed to the compute-budget program. -/
def set_compute_unit_limit (units : Nat) : Instruction :=
  { program_id := compute_budget_program_id
    accounts := []
    data := 2 :: u32_le_bytes units }

/-- system_instruction::transfer: bincode encoding of the system
instruction enum variant 2 (Transfer) followed by the u64 lamport
amount; the source is a writable signer and the destination writable. -/
def system_transfer (src dst : Pubkey) (lamports : Nat) : Instruction :=
  { program_id := system_program_id
    accounts := [{ pubkey := src, is_signer := true, is_writable := true },
                 { pubkey := dst, is_signer := false, is_writable := true }]
    data := u32_le_bytes 2 ++ u64_le_bytes lamports }

/-- solana_sdk::native_token::LAMPORTS_PER_SOL. -/
def LAMPORTS_PER_SOL : Nat := 1000000000

/-- solana_sdk::transaction::Transaction, flattened: the message is kept
as the instruction list, the designated fee payer and the recent
blockhash; signatures record, in order, which keys signed against which
blockhash (the payer signature occupies the head position, as it does
index 0 of the Rust signature vector). -/
structure Transaction where
  instructions : List Instruction
  fee_payer : Option Pubkey
  recent_blockhash : Nat
  signatures : List Signature
  deriving DecidableEq

/-- Transaction::new_with_payer: an unsigned transaction over the given
instructions with the given fee payer and the default (zero)
blockhash. -/
def Transaction.new_with_payer (ixs : List Instruction) (payer : Option Pubkey) : Transaction :=
  { instructions := ixs, fee_payer := payer, recent_blockhash := 0, signatures := [] }

/-- Transaction::partial_sign: sets the recent blockhash (discarding any
signatures made over a different blockhash, as the sdk does) and appends
one signature per signing keypair. -/
def psign (tx : Transaction) (keypairs : List Keypair) (recent_blockhash : Nat) : Transaction :=
  { tx with
    recent_blockhash := recent_blockhash
    signatures :=
      (if recent_blockhash = tx.recent_blockhash then tx.signatures else []) ++
        keypairs.map (fun k => { signer := k.pubkey, blockhash := recent_blockhash }) }

/-- The simulated ledger: an association list from address to account. -/
abbrev Ledger := List (Pubkey × Account)

/-- Lookup of an address in the ledger. -/
def ledger_lookup : Ledger → Pubkey → Option Account
  | [], _ => none
  | (k, a) :: rest, pk => if pk = k then some a else ledger_lookup rest pk

/-- Store an account at an address, replacing any previous entry. -/
def ledger_set : Ledger → Pubkey → Account → Ledger
  | [], pk, a => [(pk, a)]
  | (k, b) :: rest, pk, a =>
      if pk = k then (pk, a) :: rest else (k, b) :: ledger_set rest pk a

/-- Lamport balance of an address, zero when no account exists. -/
def lamports_of (l : Ledger) (pk : Pubkey) : Nat :=
  match ledger_lookup l pk with
  | some a => a.lamports
  | none => 0

/-- Modelled from the spec: the external runtime debits a transfer
source; it fails (insufficient funds / missing account) unless the
source account exists with at least the amount. -/
def ledger_debit (l : Ledger) (pk : Pubkey) (amount : Nat) : Option Ledger :=
  match ledger_lookup l pk with
  | some a =>
      if amount ≤ a.lamports then
        some (ledger_set l pk { a with lamports := a.lamports - amount })
      else none
  | none => none

/-- Modelled from the spec: the external runtime credits a transfer
destination, creating a fresh system-owned account when none exists. -/
def ledger_credit (l : Ledger) (pk : Pubkey) (amount : Nat) : Ledger :=
  match ledger_lookup l pk with
  | some a => ledger_set l pk { a with lamports := a.lamports + amount }
  | none =>
      ledger_set l pk
        { lamports := amount, data := [], owner := system_program_id,
          executable := false, rent_epoch := 0 }

/-- Decode the data bytes of a system transfer instruction: 4-byte
little-endian tag 2 followed by the 8-byte little-endian amount. -/
def decode_transfer (data : List Nat) : Option Nat :=
  if data.take 4 = u32_le_bytes 2 ∧ data.length = 12 then
    some (le_value (data.drop 4))
  else none

/-- Modelled from the spec: single-instruction step of the external
simulated runtime. Compute-budget instructions leave the ledger
unchanged; system transfers move lamports; anything else this
development never submits fails. -/
def exec_ix (l : Ledger) (ix : Instruction) : Except BanksClientError Ledger :=
  if ix.program_id = compute_budget_program_id then Except.ok l
  else if ix.program_id = system_program_id then
    match decode_transfer ix.data, ix.accounts with
    | some lamports, [src, dst] =>
        match ledger_debit l src.pubkey lamports with
        | some l1 => Except.ok (ledger_credit l1 dst.pubkey lamports)
        | none =>
            Except.error (BanksClientError.TransactionError
              (TransactionError.InstructionError 1 (InstructionError.Custom 1)))
    | _, _ => Except.error (BanksClientError.ClientError ("unsupported system instruction"))
  else Except.error (BanksClientError.ClientError ("unknown program"))

/-- Modelled from the spec: sequential execution of the instructions of
a transaction by the external runtime, atomically failing on the first
error. -/
def exec_instructions : Ledger → List Instruction → Except BanksClientError Ledger
  | l, [] => Except.ok l
  | l, ix :: rest =>
      match exec_ix l ix with
      | Except.ok l1 => exec_instructions l1 rest
      | Except.error e => Except.error e

deriving instance DecidableEq for Except

/-- The facade state: the session fields of ProgramTestContext that this
crate reads or writes (default payer, cached last_blockhash, the bank
ledger and clock sysvar), the outcome the external banks client would
return for the next get_new_latest_blockhash call, a counter supplying
fresh random keys for Keypair::new, and observation logs of the
transactions handed to process_transaction and simulate_transaction. -/
structure ProgramSimulator where
  payer : Keypair
  last_blockhash : Nat
  ledger : Ledger
  clock : Clock
  new_blockhash_response : Except BanksClientError Nat
  fresh_counter : Nat
  submitted : List Transaction
  simulated : List Transaction
  deriving DecidableEq

/-- The fresh public key drawn by the n-th call to Keypair::new, kept
outside the small constant key space of the fixed program ids. -/
def fresh_pubkey (n : Nat) : Pubkey := 1000000 + n

/-- ProgramSimulator::build_and_sign_tx: prepend the fixed 2,000,000
compute-unit budget instruction, resolve the payer (defaulting to the
session payer), build the transaction, refresh the blockhash through
the banks client (propagating its error and only then overwriting the
cache), and sign with the payer first and the extra signers second. -/
def build_and_sign_tx (s : ProgramSimulator) (instructions : List Instruction)
    (signers : List Keypair) (payer : Option Keypair) :
    Except BanksClientError Transaction × ProgramSimulator :=
  let compute_units_ix := set_compute_unit_limit 2000000
  let all_instructions := compute_units_ix :: instructions
  let actual_payer := payer.getD s.payer
  let transaction := Transaction.new_with_payer all_instructions (some actual_payer.pubkey)
  match s.new_blockhash_response with
  | Except.error e => (Except.error e, s)
  | Except.ok blockhash =>
      let s1 := { s with last_blockhash := blockhash }
      let transaction1 := psign transaction [actual_payer] s1.last_blockhash
      let transaction2 := psign transaction1 signers s1.last_blockhash
      (Except.ok transaction2, s1)

/-- Modelled from the spec: BanksClient::process_transaction commits the
effects of a successfully executed transaction to the ledger (recording
the transaction in the submitted log) and reports the first execution
error otherwise, leaving the ledger unchanged. -/
def process_transaction (s : ProgramSimulator) (tx : Transaction) :
    Except BanksClientError Unit × ProgramSimulator :=
  match exec_instructions s.ledger tx.instructions with
  | Except.ok l2 =>
      (Except.ok (), { s with ledger := l2, submitted := s.submitted ++ [tx] })
  | Except.error e => (Except.error e, s)

/-- Modelled from the spec: the opaque simulation result of the external
runtime, reduced to whether execution succeeded. -/
structure BanksTransactionResultWithSimulation where
  succeeded : Bool
  deriving DecidableEq

/-- Modelled from the spec: BanksClient::simulate_transaction executes
the transaction against the current ledger without committing any
change (recording the transaction in the simulated log). -/
def simulate_transaction (s : ProgramSimulator) (tx : Transaction) :
    Except BanksClientError BanksTransactionResultWithSimulation × ProgramSimulator :=
  (Except.ok
     { succeeded :=
         match exec_instructions s.ledger tx.instructions with
         | Except.ok _ => true
         | Except.error _ => false },
   { s with simulated := s.simulated ++ [tx] })

/-- ProgramSimulator::process_ixs_with_default_compute_limit: build and
sign, read signature 0, submit, and return the signature. -/
def process_ixs_with_default_compute_limit (s : ProgramSimulator)
    (instructions : List Instruction) (signers : List Keypair) (payer : Option Keypair) :
    Except BanksClientError Signature × ProgramSimulator :=
  match build_and_sign_tx s instructions signers payer with
  | (Except.error e, s1) => (Except.error e, s1)
  | (Except.ok tx, s1) =>
      let signature := tx.signatures.headI
      match process_transaction s1 tx with
      | (Except.error e, s2) => (Except.error e, s2)
      | (Except.ok _, s2) => (Except.ok signature, s2)

/-- ProgramSimulator::process_ix_with_default_compute_limit. -/
def process_ix_with_default_compute_limit (s : ProgramSimulator) (instruction : Instruction)
    (signers : List Keypair) (payer : Option Keypair) :
    Except BanksClientError Signature × ProgramSimulator :=
  process_ixs_with_default_compute_limit s [instruction] signers payer

/-- ProgramSimulator::simulate_ixs_with_default_compute_limit. -/
def simulate_ixs_with_default_compute_limit (s : ProgramSimulator)
    (instructions : List Instruction) (signers : List Keypair) (payer : Option Keypair) :
    Except BanksClientError BanksTransactionResultWithSimulation × ProgramSimulator :=
  match build_and_sign_tx s instructions signers payer with
  | (Except.error e, s1) => (Except.error e, s1)
  | (Except.ok tx, s1) => simulate_transaction s1 tx

/-- ProgramSimulator::simulate_ix_with_default_compute_limit. -/
def simulate_ix_with_default_compute_limit (s : ProgramSimulator) (instruction : Instruction)
    (signers : List Keypair) (payer : Option Keypair) :
    Except BanksClientError BanksTransactionResultWithSimulation × ProgramSimulator :=
  simulate_ixs_with_default_compute_limit s [instruction] signers payer

/-- ProgramSimulator::airdrop: submit a system transfer from the session
payer to the destination, with no extra signers and the default payer. -/
def airdrop (s : ProgramSimulator) (dst : Pubkey) (lamports : Nat) :
    Except BanksClientError Signature × ProgramSimulator :=
  process_ix_with_default_compute_limit s (system_transfer s.payer.pubkey dst lamports) [] none

/-- ProgramSimulator::get_funded_keypair: generate a fresh keypair and
airdrop LAMPORTS_PER_SOL to it. -/
def get_funded_keypair (s : ProgramSimulator) :
    Except BanksClientError Keypair × ProgramSimulator :=
  match airdrop { s with fresh_counter := s.fresh_counter + 1 }
      (fresh_pubkey s.fresh_counter) LAMPORTS_PER_SOL with
  | (Except.ok _, s2) => (Except.ok { pubkey := fresh_pubkey s.fresh_counter }, s2)
  | (Except.error e, s2) => (Except.error e, s2)

/-- ProgramSimulator::get_account: fetch the account through the banks
client and turn a missing account into ClientError with the fixed
message. -/
def get_account (s : ProgramSimulator) (pubkey : Pubkey) : Except BanksClientError Account :=
  match ledger_lookup s.ledger pubkey with
  | none => Except.error (BanksClientError.ClientError ("Account not found"))
  | some a => Except.ok a

/-- A borsh deserializer for the type parameter T of the generic account
readers: consumes a prefix of the byte list or fails. -/
structure Deserializer (α : Type) where
  run : List Nat → Option (α × List Nat)

/-- Outcome of a Rust computation that may panic instead of returning. -/
inductive PanicOr (α : Type) where
  | panicked
  | returned (a : α)
  deriving DecidableEq

/-- ProgramSimulator::get_anchor_account_data: fetch the account, slice
off the leading 8 discriminator bytes (the Rust range expression panics
when the data is shorter than 8 bytes), and borsh-deserialize the rest,
propagating a failure as the Io variant. -/
def get_anchor_account_data {α : Type} (d : Deserializer α) (s : ProgramSimulator)
    (pubkey : Pubkey) : PanicOr (Except BanksClientError α) :=
  match get_account s pubkey with
  | Except.error e => PanicOr.returned (Except.error e)
  | Except.ok account =>
      if account.data.length < 8 then PanicOr.panicked
      else
        match d.run (account.data.drop 8) with
        | none => PanicOr.returned (Except.error (BanksClientError.ioError ("deserialization error")))
        | some (t, _) => PanicOr.returned (Except.ok t)

/-- ProgramSimulator::get_balance: the lamport balance through the banks
client, zero for a nonexistent account. -/
def get_balance (s : ProgramSimulator) (pubkey : Pubkey) : Except BanksClientError Nat :=
  Except.ok (lamports_of s.ledger pubkey)

/-- ProgramSimulator::get_clock: read the clock sysvar of the bank. -/
def get_clock (s : ProgramSimulator) : Except BanksClientError Clock :=
  Except.ok s.clock

/-- Two-complement wrap of an integer into the signed 64-bit range,
the release-profile semantics of an overflowing i64 addition (with
overflow checks enabled the addition panics instead; in neither profile
is the mathematical sum produced once it leaves the range). -/
def i64_wrap (n : Int) : Int :=
  (n + 9223372036854775808) % 18446744073709551616 - 9223372036854775808

/-- Wrapping i64 addition. -/
def i64_add (a b : Int) : Int := i64_wrap (a + b)

/-- ProgramSimulator::advance_clock_by: read the clock sysvar, add the
signed delta to epoch_start_timestamp and unix_timestamp (i64
additions), and write the sysvar back. -/
def advance_clock_by (s : ProgramSimulator) (seconds_to_advance : Int) :
    Except BanksClientError Unit × ProgramSimulator :=
  let clock := s.clock
  let clock1 :=
    { clock with
      epoch_start_timestamp := i64_add clock.epoch_start_timestamp seconds_to_advance
      unix_timestamp := i64_add clock.unix_timestamp seconds_to_advance }
  (Except.ok (), { s with clock := clock1 })

/-- ProgramSimulator::advance_clock_to: read the clock sysvar, overwrite
epoch_start_timestamp and unix_timestamp with the given absolute
timestamp, and write the sysvar back. -/
def advance_clock_to (s : ProgramSimulator) (seconds_to_advance : Int) :
    Except BanksClientError Unit × ProgramSimulator :=
  let clock := s.clock
  let clock1 :=
    { clock with
      epoch_start_timestamp := seconds_to_advance
      unix_timestamp := seconds_to_advance }
  (Except.ok (), { s with clock := clock1 })

/-- solana_program::program_error::ProgramError, restricted to the
variants reachable from anchor error conversion in this development. -/
inductive ProgramError where
  | Custom (code : Nat)
  | InvalidArgument
  | InvalidInstructionData
  | InvalidAccountData
  deriving DecidableEq

/-- anchor_lang::prelude::Error: either a typed anchor error carrying
its error code number or a wrapped program error. -/
inductive AnchorLangError where
  | anchorError (error_code_number : Nat)
  | programError (p : ProgramError)
  deriving DecidableEq

/-- The anchor From conversion of Error into ProgramError: a typed
anchor error becomes Custom of its code number, a wrapped program error
is returned as is. -/
def program_error_from_anchor : AnchorLangError → ProgramError
  | .anchorError code => ProgramError.Custom code
  | .programError p => p

/-- The From conversion of ProgramError into u64: builtin variants map
to their tag shifted left 32 bits; Custom 0 maps to the CUSTOM_ZERO
builtin code and any other custom code to itself. -/
def program_error_to_u64 : ProgramError → Nat
  | ProgramError.Custom code => if code = 0 then 4294967296 else code
  | ProgramError.InvalidArgument => 2 * 4294967296
  | ProgramError.InvalidInstructionData => 3 * 4294967296
  | ProgramError.InvalidAccountData => 4 * 4294967296

/-- The From conversion of u64 into InstructionError: the builtin codes
decode to their variants, a value without builtin bits decodes to
Custom of its low 32 bits, and anything else to InvalidError. -/
def instruction_error_from_u64 (code : Nat) : InstructionError :=
  if code = 4294967296 then InstructionError.Custom 0
  else if code = 2 * 4294967296 then InstructionError.InvalidArgument
  else if code = 3 * 4294967296 then InstructionError.InvalidInstructionData
  else if code = 4 * 4294967296 then InstructionError.InvalidAccountData
  else if code / 4294967296 = 0 then InstructionError.Custom (code % 4294967296)
  else InstructionError.InvalidError

/-- into_transaction_error_with_index: wrap the composed error-code
conversion chain into the InstructionError variant of TransactionError
at the given instruction index. -/
def into_transaction_error_with_index (instruction_index : Nat) (error : AnchorLangError) :
    TransactionError :=
  TransactionError.InstructionError instruction_index
    (instruction_error_from_u64 (program_error_to_u64 (program_error_from_anchor error)))

/-- into_transaction_error: into_transaction_error_with_index at
index 0. -/
def into_transaction_error (error : AnchorLangError) : TransactionError :=
  into_transaction_error_with_index 0 error

/-! ### Concrete session states and inputs used to exercise the
operations on closed instances. -/

/-- A concrete default payer keypair. -/
def payer0 : Keypair := { pubkey := 500 }

/-- The funded account of the default payer (10 SOL). -/
def account0 : Account :=
  { lamports := 10000000000, data := [], owner := system_program_id,
    executable := false, rent_epoch := 0 }

/-- A concrete clock state. -/
def clock0 : Clock :=
  { slot := 5, epoch_start_timestamp := 100, epoch := 2,
    leader_schedule_epoch := 3, unix_timestamp := 200 }

/-- A concrete healthy session: funded payer, blockhash refresh answers
with hash 9. -/
def s0 : ProgramSimulator :=
  { payer := payer0, last_blockhash := 7, ledger := [(500, account0)],
    clock := clock0, new_blockhash_response := Except.ok 9,
    fresh_counter := 0, submitted := [], simulated := [] }

/-- An arbitrary caller instruction for building (never executed). -/
def ix0 : Instruction := { program_id := 77, accounts := [], data := [1, 2] }

/-- An extra signer keypair. -/
def kp1 : Keypair := { pubkey := 600 }

/-- An alternative payer keypair. -/
def payerK : Keypair := { pubkey := 700 }

/-- A session whose next blockhash refresh fails. -/
def sErr : ProgramSimulator :=
  { s0 with new_blockhash_response := Except.error (BanksClientError.RpcError ("transport")) }

/-- A session whose clock sits at the maximum i64 timestamp. -/
def sMax : ProgramSimulator :=
  { s0 with clock := { clock0 with epoch_start_timestamp := 9223372036854775807 } }

/-- An account whose data is shorter than the 8-byte discriminator. -/
def account_short : Account :=
  { lamports := 1, data := [0, 1, 2], owner := system_program_id,
    executable := false, rent_epoch := 0 }

/-- An account with a discriminator and one payload byte. -/
def account_long : Account :=
  { lamports := 1, data := [1, 2, 3, 4, 5, 6, 7, 8, 9], owner := system_program_id,
    executable := false, rent_epoch := 0 }

/-- An account with exactly the 8 discriminator bytes and no payload. -/
def account_eight : Account :=
  { lamports := 1, data := [1, 2, 3, 4, 5, 6, 7, 8], owner := system_program_id,
    executable := false, rent_epoch := 0 }

/-- A session holding the three typed-read test accounts. -/
def sAcct : ProgramSimulator :=
  { s0 with ledger :=
      [(500, account0), (7, account_short), (8, account_long), (9, account_eight)] }

/-- A concrete deserializer: reads one leading byte, fails on empty
input. -/
def d0 : Deserializer Nat :=
  { run := fun bytes =>
      match bytes with
      | [] => none
      | b :: rest => some (b, rest) }

/-- A concrete executable caller instruction: 1000 lamports from the
default payer to address 600. -/
def ixT : Instruction := system_transfer 500 600 1000

/-- The payer signature over blockhash 9. -/
def sig500 : Signature := { signer := 500, blockhash := 9 }

/-- The transaction built from s0 over [ixT] with extra signer kp1. -/
def txW : Transaction :=
  { instructions := [set_compute_unit_limit 2000000, ixT], fee_payer := some 500,
    recent_blockhash := 9,
    signatures := [sig500, { signer := 600, blockhash := 9 }] }

/-- The ledger after executing the 1000-lamport transfer of ixT. -/
def ledgerP : Ledger :=
  [(500, { account0 with lamports := 9999999000 }),
   (600, { lamports := 1000, data := [], owner := system_program_id,
           executable := false, rent_epoch := 0 })]

/-- The session after processing txW from s0. -/
def sW_process : ProgramSimulator :=
  { s0 with last_blockhash := 9, ledger := ledgerP, submitted := [txW] }

/-- The session after simulating txW from s0. -/
def sW_simulate : ProgramSimulator :=
  { s0 with last_blockhash := 9, simulated := [txW] }

/-- The simulation result of txW from s0. -/
def rW : BanksTransactionResultWithSimulation := { succeeded := true }

/-- The transaction built from s0 over [ix0] with extra signer kp1 and
the default payer. -/
def txB0 : Transaction :=
  { instructions := [set_compute_unit_limit 2000000, ix0], fee_payer := some 500,
    recent_blockhash := 9,
    signatures := [sig500, { signer := 600, blockhash := 9 }] }

/-- The transaction built from s0 over [ix0] with extra signer kp1 and
the supplied payer payerK. -/
def txBK : Transaction :=
  { instructions := [set_compute_unit_limit 2000000, ix0], fee_payer := some 700,
    recent_blockhash := 9,
    signatures := [{ signer := 700, blockhash := 9 }, { signer := 600, blockhash := 9 }] }

/-- The transaction submitted by airdrop s0 600 1000. -/
def txA : Transaction :=
  { instructions := [set_compute_unit_limit 2000000, ixT], fee_payer := some 500,
    recent_blockhash := 9, signatures := [sig500] }

/-- The session after airdrop s0 600 1000. -/
def sA : ProgramSimulator :=
  { s0 with last_blockhash := 9, ledger := ledgerP, submitted := [txA] }

/-- The keypair generated by get_funded_keypair from s0. -/
def kpF : Keypair := { pubkey := fresh_pubkey 0 }

/-- The transaction submitted by get_funded_keypair from s0. -/
def txF : Transaction :=
  { instructions := [set_compute_unit_limit 2000000,
                     system_transfer 500 (fresh_pubkey 0) LAMPORTS_PER_SOL],
    fee_payer := some 500, recent_blockhash := 9, signatures := [sig500] }

/-- The ledger after the get_funded_keypair airdrop from s0. -/
def ledgerF : Ledger :=
  [(500, { account0 with lamports := 9000000000 }),
   (fresh_pubkey 0,
    { lamports := LAMPORTS_PER_SOL, data := [], owner := system_program_id,
      executable := false, rent_epoch := 0 })]

/-- The session after get_funded_keypair from s0. -/
def sF : ProgramSimulator :=
  { s0 with
    fresh_counter := 1
    last_blockhash := 9
    ledger := ledgerF
    submitted := [txF] }

/-! ### Helper lemmas -/

theorem build_error_elim (s : ProgramSimulator) (I : List Instruction)
    (signers : List Keypair) (payer : Option Keypair) (e : BanksClientError)
    (h : s.new_blockhash_response = Except.error e) :
    build_and_sign_tx s I signers payer = (Except.error e, s) := by
  unfold build_and_sign_tx
  rw [h]

theorem build_ok_eval (s : ProgramSimulator) (I : List Instruction)
    (signers : List Keypair) (payer : Option Keypair) (b : Nat)
    (h : s.new_blockhash_response = Except.ok b) :
    build_and_sign_tx s I signers payer =
      (Except.ok
        { instructions := set_compute_unit_limit 2000000 :: I
          fee_payer := some ((payer.getD s.payer).pubkey)
          recent_blockhash := b
          signatures :=
            { signer := (payer.getD s.payer).pubkey, blockhash := b } ::
              signers.map (fun k => { signer := k.pubkey, blockhash := b }) },
       { s with last_blockhash := b }) := by
  unfold build_and_sign_tx
  rw [h]
  simp [psign, Transaction.new_with_payer]

theorem ledger_lookup_set (l : Ledger) (k : Pubkey) (a : Account) (k2 : Pubkey) :
    ledger_lookup (ledger_set l k a) k2 = if k2 = k then some a else ledger_lookup l k2 := by
  induction l with
  | nil =>
      by_cases h2 : k2 = k <;> simp [ledger_set, ledger_lookup, h2]
  | cons hd tl ih =>
      obtain ⟨k0, b⟩ := hd
      by_cases h1 : k = k0 <;> by_cases h2 : k2 = k <;> by_cases h3 : k2 = k0 <;>
        simp_all [ledger_set, ledger_lookup]

theorem i64_add_eq_of_range (a b : Int) (h1 : -9223372036854775808 ≤ a + b)
    (h2 : a + b < 9223372036854775808) : i64_add a b = a + b := by
  unfold i64_add i64_wrap
  have h3 : (0:Int) ≤ a + b + 9223372036854775808 := by linarith
  have h4 : a + b + 9223372036854775808 < 18446744073709551616 := by linarith
  rw [Int.emod_eq_of_lt h3 h4]
  ring

theorem decode_transfer_sol :
    decode_transfer (u32_le_bytes 2 ++ u64_le_bytes LAMPORTS_PER_SOL) = some LAMPORTS_PER_SOL := by
  decide

theorem process_ixs_ok_elim (s : ProgramSimulator) (I : List Instruction)
    (signers : List Keypair) (payer : Option Keypair) (sig : Signature) (s2 : ProgramSimulator)
    (h : process_ixs_with_default_compute_limit s I signers payer = (Except.ok sig, s2)) :
    ∃ b tx l2,
      s.new_blockhash_response = Except.ok b ∧
      build_and_sign_tx s I signers payer = (Except.ok tx, { s with last_blockhash := b }) ∧
      exec_instructions s.ledger tx.instructions = Except.ok l2 ∧
      sig = tx.signatures.headI ∧
      s2 = { s with last_blockhash := b, ledger := l2, submitted := s.submitted ++ [tx] } := by
  cases hr : s.new_blockhash_response with
  | error e =>
      unfold process_ixs_with_default_compute_limit at h
      rw [build_error_elim s I signers payer e hr] at h
      simp at h
  | ok b =>
      unfold process_ixs_with_default_compute_limit at h
      rw [build_ok_eval s I signers payer b hr] at h
      unfold process_transaction at h
      simp only at h
      cases hx : exec_instructions s.ledger
          (set_compute_unit_limit 2000000 :: I) with
      | error e =>
          rw [hx] at h
          simp at h
      | ok l2 =>
          rw [hx] at h
          simp only [Prod.mk.injEq, Except.ok.injEq] at h
          obtain ⟨hsig, hs2⟩ := h
          rw [← hr]
          exact ⟨b, _, l2, hr, build_ok_eval s I signers payer b hr, hx, hsig.symm, hs2.symm⟩

theorem simulate_ixs_ok_elim (s : ProgramSimulator) (I : List Instruction)
    (signers : List Keypair) (payer : Option Keypair)
    (r : BanksTransactionResultWithSimulation) (s2 : ProgramSimulator)
    (h : simulate_ixs_with_default_compute_limit s I signers payer = (Except.ok r, s2)) :
    ∃ b tx,
      s.new_blockhash_response = Except.ok b ∧
      build_and_sign_tx s I signers payer = (Except.ok tx, { s with last_blockhash := b }) ∧
      s2 = { s with last_blockhash := b, simulated := s.simulated ++ [tx] } := by
  cases hr : s.new_blockhash_response with
  | error e =>
      unfold simulate_ixs_with_default_compute_limit at h
      rw [build_error_elim s I signers payer e hr] at h
      simp at h
  | ok b =>
      unfold simulate_ixs_with_default_compute_limit at h
      rw [build_ok_eval s I signers payer b hr] at h
      unfold simulate_transaction at h
      simp only [Prod.mk.injEq, Except.ok.injEq] at h
      obtain ⟨hres, hs2⟩ := h
      rw [← hr]
      exact ⟨b, _, hr, build_ok_eval s I signers payer b hr, hs2.symm⟩

theorem exec_airdrop_lamports (l : Ledger) (src dst : Pubkey) (l2 : Ledger)
    (h : exec_instructions l
        [set_compute_unit_limit 2000000, system_transfer src dst LAMPORTS_PER_SOL] =
      Except.ok l2)
    (hdst : ledger_lookup l dst = none) :
    lamports_of l2 dst = LAMPORTS_PER_SOL := by
  simp only [exec_instructions, exec_ix, set_compute_unit_limit, system_transfer,
    compute_budget_program_id, system_program_id, decode_transfer_sol] at h
  norm_num at h
  cases hdeb : ledger_debit l src LAMPORTS_PER_SOL with
  | none => rw [hdeb] at h; simp at h
  | some l1 =>
      rw [hdeb] at h
      simp only [Except.ok.injEq] at h
      subst h
      unfold ledger_debit at hdeb
      cases hsrc : ledger_lookup l src with
      | none => rw [hsrc] at hdeb; simp at hdeb
      | some a =>
          rw [hsrc] at hdeb
          simp only at hdeb
          by_cases hle : LAMPORTS_PER_SOL ≤ a.lamports
          · rw [if_pos hle] at hdeb
            simp only [Option.some.injEq] at hdeb
            subst hdeb
            have hne : dst ≠ src := by
              intro he
              rw [he, hsrc] at hdst
              exact Option.noConfusion hdst
            have hl1 : ledger_lookup (ledger_set l src
                { a with lamports := a.lamports - LAMPORTS_PER_SOL }) dst = none := by
              rw [ledger_lookup_set, if_neg hne, hdst]
            unfold ledger_credit
            rw [hl1]
            unfold lamports_of
            rw [ledger_lookup_set, if_pos rfl]
          · rw [if_neg hle] at hdeb
            exact Option.noConfusion hdeb

/-! ### Claim theorems -/

/-- Claim C1: for every instruction list I, every signer list and every
optional payer, the transaction produced by build_and_sign_tx has as its
first instruction exactly the one compute-budget instruction setting the
compute unit limit to 2,000,000 and its remaining instructions equal I
in the same order; and the transaction submitted by
process_ixs_with_default_compute_limit, respectively simulated by
simulate_ixs_with_default_compute_limit, is of that same shape. -/
theorem compute_budget_first (s : ProgramSimulator) (I : List Instruction)
    (signers : List Keypair) (payer : Option Keypair) :
    (∀ tx s2, build_and_sign_tx s I signers payer = (Except.ok tx, s2) →
      tx.instructions = set_compute_unit_limit 2000000 :: I) ∧
    (∀ sig s2, process_ixs_with_default_compute_limit s I signers payer = (Except.ok sig, s2) →
      ∃ tx, s2.submitted = s.submitted ++ [tx] ∧
        tx.instructions = set_compute_unit_limit 2000000 :: I) ∧
    (∀ r s2, simulate_ixs_with_default_compute_limit s I signers payer = (Except.ok r, s2) →
      ∃ tx, s2.simulated = s.simulated ++ [tx] ∧
        tx.instructions = set_compute_unit_limit 2000000 :: I) := by
  refine ⟨?_, ?_, ?_⟩
  · intro tx s2 h
    cases hr : s.new_blockhash_response with
    | error e => rw [build_error_elim s I signers payer e hr] at h; simp at h
    | ok b =>
        rw [build_ok_eval s I signers payer b hr] at h
        simp only [Prod.mk.injEq, Except.ok.injEq] at h
        rw [← h.1]
  · intro sig s2 h
    obtain ⟨b, tx, l2, hr, hb, hx, hsig, hs2⟩ :=
      process_ixs_ok_elim s I signers payer sig s2 h
    have heq := build_ok_eval s I signers payer b hr
    rw [hb] at heq
    simp only [Prod.mk.injEq, Except.ok.injEq] at heq
    refine ⟨tx, ?_, ?_⟩
    · rw [hs2]
    · rw [heq.1]
  · intro r s2 h
    obtain ⟨b, tx, hr, hb, hs2⟩ := simulate_ixs_ok_elim s I signers payer r s2 h
    have heq := build_ok_eval s I signers payer b hr
    rw [hb] at heq
    simp only [Prod.mk.injEq, Except.ok.injEq] at heq
    refine ⟨tx, ?_, ?_⟩
    · rw [hs2]
    · rw [heq.1]

/-- Claim C1 witness: the three parts of compute_budget_first applied to
the concrete session s0, the instruction list [ixT], the signer kp1 and
the default payer. -/
theorem compute_budget_first_witness :
    txW.instructions = set_compute_unit_limit 2000000 :: [ixT] ∧
    (∃ tx, sW_process.submitted = s0.submitted ++ [tx] ∧
      tx.instructions = set_compute_unit_limit 2000000 :: [ixT]) ∧
    (∃ tx, sW_simulate.simulated = s0.simulated ++ [tx] ∧
      tx.instructions = set_compute_unit_limit 2000000 :: [ixT]) :=
  ⟨(compute_budget_first s0 [ixT] [kp1] none).1 txW { s0 with last_blockhash := 9 } (by decide),
   (compute_budget_first s0 [ixT] [kp1] none).2.1 sig500 sW_process (by decide),
   (compute_budget_first s0 [ixT] [kp1] none).2.2 rW sW_simulate (by decide)⟩

/-- Claim C2: for every transaction built by build_and_sign_tx, the fee
payer is the resolved payer (the session default payer when the optional
payer is absent, the supplied payer when present), the blockhash is the
freshly refreshed one now cached in the session, and the signature list
starts with the resolved payer signature followed by the additional
signers in order, all over that refreshed blockhash. -/
theorem payer_resolution_and_signing_order (s : ProgramSimulator) (I : List Instruction)
    (signers : List Keypair) (payer : Option Keypair) (tx : Transaction)
    (s2 : ProgramSimulator)
    (h : build_and_sign_tx s I signers payer = (Except.ok tx, s2)) :
    tx.fee_payer = some ((payer.getD s.payer).pubkey) ∧
    (payer = none → tx.fee_payer = some s.payer.pubkey) ∧
    (∀ k, payer = some k → tx.fee_payer = some k.pubkey) ∧
    s.new_blockhash_response = Except.ok s2.last_blockhash ∧
    tx.recent_blockhash = s2.last_blockhash ∧
    tx.signatures =
      { signer := (payer.getD s.payer).pubkey, blockhash := s2.last_blockhash } ::
        signers.map (fun k => { signer := k.pubkey, blockhash := s2.last_blockhash }) := by
  cases hr : s.new_blockhash_response with
  | error e => rw [build_error_elim s I signers payer e hr] at h; simp at h
  | ok b =>
      rw [build_ok_eval s I signers payer b hr] at h
      simp only [Prod.mk.injEq, Except.ok.injEq] at h
      obtain ⟨h1, h2⟩ := h
      subst h1
      subst h2
      refine ⟨rfl, ?_, ?_, rfl, rfl, rfl⟩
      · intro hp; subst hp; rfl
      · intro k hk; subst hk; rfl

/-- Claim C2 witness: payer_resolution_and_signing_order applied to the
concrete build from s0 over [ix0] with signer kp1, once with the payer
absent and once with the payer payerK supplied. -/
theorem payer_resolution_and_signing_order_witness :
    (txB0.fee_payer = some (((none : Option Keypair).getD s0.payer).pubkey) ∧
      ((none : Option Keypair) = none → txB0.fee_payer = some s0.payer.pubkey) ∧
      (∀ k, (none : Option Keypair) = some k → txB0.fee_payer = some k.pubkey) ∧
      s0.new_blockhash_response =
        Except.ok ({ s0 with last_blockhash := 9 } : ProgramSimulator).last_blockhash ∧
      txB0.recent_blockhash = ({ s0 with last_blockhash := 9 } : ProgramSimulator).last_blockhash ∧
      txB0.signatures =
        { signer := (((none : Option Keypair).getD s0.payer)).pubkey,
          blockhash := ({ s0 with last_blockhash := 9 } : ProgramSimulator).last_blockhash } ::
          [kp1].map (fun k =>
            { signer := k.pubkey,
              blockhash := ({ s0 with last_blockhash := 9 } : ProgramSimulator).last_blockhash })) ∧
    (txBK.fee_payer = some (((some payerK).getD s0.payer).pubkey) ∧
      ((some payerK : Option Keypair) = none → txBK.fee_payer = some s0.payer.pubkey) ∧
      (∀ k, (some payerK : Option Keypair) = some k → txBK.fee_payer = some k.pubkey) ∧
      s0.new_blockhash_response =
        Except.ok ({ s0 with last_blockhash := 9 } : ProgramSimulator).last_blockhash ∧
      txBK.recent_blockhash = ({ s0 with last_blockhash := 9 } : ProgramSimulator).last_blockhash ∧
      txBK.signatures =
        { signer := (((some payerK).getD s0.payer)).pubkey,
          blockhash := ({ s0 with last_blockhash := 9 } : ProgramSimulator).last_blockhash } ::
          [kp1].map (fun k =>
            { signer := k.pubkey,
              blockhash := ({ s0 with last_blockhash := 9 } : ProgramSimulator).last_blockhash })) :=
  ⟨payer_resolution_and_signing_order s0 [ix0] [kp1] none txB0
      { s0 with last_blockhash := 9 } (by decide),
   payer_resolution_and_signing_order s0 [ix0] [kp1] (some payerK) txBK
      { s0 with last_blockhash := 9 } (by decide)⟩

/-- Claim C10: when the blockhash refresh fails, build_and_sign_tx
returns that error with the session unchanged (in particular the cached
last_blockhash keeps its prior value); when the refresh succeeds, the
session cache holds exactly the newly fetched blockhash and the built
transaction uses it as its recent blockhash, with every produced
signature made over it. -/
theorem blockhash_refresh_state (s : ProgramSimulator) (I : List Instruction)
    (signers : List Keypair) (payer : Option Keypair) :
    (∀ e, s.new_blockhash_response = Except.error e →
      build_and_sign_tx s I signers payer = (Except.error e, s)) ∧
    (∀ b, s.new_blockhash_response = Except.ok b →
      (build_and_sign_tx s I signers payer).2 = { s with last_blockhash := b } ∧
      ∃ tx, (build_and_sign_tx s I signers payer).1 = Except.ok tx ∧
        tx.recent_blockhash = b ∧
        ∀ sg ∈ tx.signatures, sg.blockhash = b) := by
  constructor
  · intro e he
    exact build_error_elim s I signers payer e he
  · intro b hb
    rw [build_ok_eval s I signers payer b hb]
    refine ⟨rfl, _, rfl, rfl, ?_⟩
    intro sg hsg
    simp only [List.mem_cons, List.mem_map] at hsg
    rcases hsg with h1 | ⟨k, hk, h2⟩
    · rw [h1]
    · rw [← h2]

/-- Claim C10 witness: the error part of blockhash_refresh_state applied
to the failing session sErr and the success part applied to s0 with the
fetched blockhash 9. -/
theorem blockhash_refresh_state_witness :
    build_and_sign_tx sErr [] [] none =
      (Except.error (BanksClientError.RpcError ("transport")), sErr) ∧
    ((build_and_sign_tx s0 [] [] none).2 = { s0 with last_blockhash := 9 } ∧
      ∃ tx, (build_and_sign_tx s0 [] [] none).1 = Except.ok tx ∧
        tx.recent_blockhash = 9 ∧
        ∀ sg ∈ tx.signatures, sg.blockhash = 9) :=
  ⟨(blockhash_refresh_state sErr [] [] none).1
      (BanksClientError.RpcError ("transport")) (by decide),
   (blockhash_refresh_state s0 [] [] none).2 9 (by decide)⟩

/-- Claim C3 counterexample: at address 42 of the concrete session s0,
whose ledger holds no account there, get_account fails with the
ClientError variant of BanksClientError itself (carrying the fixed
message), so the error is not of a kind distinct from ClientError as the
claim states. -/
theorem get_account_missing_is_client_error :
    get_account s0 42 = Except.error (BanksClientError.ClientError ("Account not found")) ∧
    isClientErrorKind (BanksClientError.ClientError ("Account not found")) = true := by
  constructor
  · decide
  · rfl

/-- Claim C3 (amended): for every address with no account in the ledger,
get_account fails with the ClientError variant carrying the message
Account not found (the crate encodes the missing-account failure in
ClientError rather than in a distinct error kind), and for every address
that has an account it returns that account unchanged. -/
theorem get_account_spec (s : ProgramSimulator) (pk : Pubkey) :
    (ledger_lookup s.ledger pk = none →
      get_account s pk = Except.error (BanksClientError.ClientError ("Account not found"))) ∧
    (∀ a, ledger_lookup s.ledger pk = some a → get_account s pk = Except.ok a) := by
  constructor
  · intro h; unfold get_account; rw [h]
  · intro a h; unfold get_account; rw [h]

/-- Claim C3 witness: get_account_spec applied to the concrete session
s0 at the absent address 42 and at the present address 500. -/
theorem get_account_spec_witness :
    get_account s0 42 = Except.error (BanksClientError.ClientError ("Account not found")) ∧
    get_account s0 500 = Except.ok account0 :=
  ⟨(get_account_spec s0 42).1 (by decide),
   (get_account_spec s0 500).2 account0 (by decide)⟩

/-- Claim C4 counterexample: at address 7 of the concrete session sAcct
the stored account has 3 data bytes, fewer than the 8-byte
discriminator; there get_anchor_account_data panics (the Rust slice
expression data[8..] is out of range) instead of returning a
deserialization error, so the operation is not total. -/
theorem anchor_data_short_panics :
    get_anchor_account_data d0 sAcct 7 = PanicOr.panicked ∧
    get_anchor_account_data d0 sAcct 7 ≠
      PanicOr.returned (Except.error (BanksClientError.ioError ("deserialization error"))) := by
  constructor
  · decide
  · decide

/-- Claim C4 (amended): get_anchor_account_data propagates the
get_account failure on a missing account; on an existing account it
panics when the data is shorter than the 8-byte discriminator prefix,
returns the propagated deserialization (Io) error when the
post-discriminator bytes fail the deserializer of the target type, and
returns the decoded value when they succeed (the 8 skipped bytes are
never validated). -/
theorem get_anchor_account_data_spec {α : Type} (d : Deserializer α)
    (s : ProgramSimulator) (pk : Pubkey) :
    (∀ e, get_account s pk = Except.error e →
      get_anchor_account_data d s pk = PanicOr.returned (Except.error e)) ∧
    (∀ a, get_account s pk = Except.ok a → a.data.length < 8 →
      get_anchor_account_data d s pk = PanicOr.panicked) ∧
    (∀ a, get_account s pk = Except.ok a → 8 ≤ a.data.length →
      d.run (a.data.drop 8) = none →
      get_anchor_account_data d s pk =
        PanicOr.returned (Except.error (BanksClientError.ioError ("deserialization error")))) ∧
    (∀ a t rest, get_account s pk = Except.ok a → 8 ≤ a.data.length →
      d.run (a.data.drop 8) = some (t, rest) →
      get_anchor_account_data d s pk = PanicOr.returned (Except.ok t)) := by
  refine ⟨?_, ?_, ?_, ?_⟩
  · intro e h
    unfold get_anchor_account_data
    rw [h]
  · intro a h hlt
    unfold get_anchor_account_data
    rw [h]
    simp only
    rw [if_pos hlt]
  · intro a h hge hrun
    unfold get_anchor_account_data
    rw [h]
    simp only
    rw [if_neg (by omega), hrun]
  · intro a t rest h hge hrun
    unfold get_anchor_account_data
    rw [h]
    simp only
    rw [if_neg (by omega), hrun]

/-- Claim C4 witness: get_anchor_account_data_spec applied to the
concrete session sAcct with the byte-reading deserializer d0 at a
missing address, a short account, an 8-byte account whose empty payload
fails d0, and a 9-byte account whose payload decodes to 9. -/
theorem get_anchor_account_data_spec_witness :
    get_anchor_account_data d0 sAcct 42 =
      PanicOr.returned (Except.error (BanksClientError.ClientError ("Account not found"))) ∧
    get_anchor_account_data d0 sAcct 7 = PanicOr.panicked ∧
    get_anchor_account_data d0 sAcct 9 =
      PanicOr.returned (Except.error (BanksClientError.ioError ("deserialization error"))) ∧
    get_anchor_account_data d0 sAcct 8 = PanicOr.returned (Except.ok 9) :=
  ⟨(get_anchor_account_data_spec d0 sAcct 42).1
      (BanksClientError.ClientError ("Account not found")) (by decide),
   (get_anchor_account_data_spec d0 sAcct 7).2.1 account_short (by decide) (by decide),
   (get_anchor_account_data_spec d0 sAcct 9).2.2.1 account_eight (by decide) (by decide)
      (by decide),
   (get_anchor_account_data_spec d0 sAcct 8).2.2.2 account_long 9 [] (by decide) (by decide)
      (by decide)⟩

/-- Claim C5 counterexample: with epoch_start_timestamp at the maximum
i64 value in the concrete session sMax, advancing the clock by 1 does
not leave the field at its prior value increased by 1: the i64 addition
overflows and the stored value wraps to the minimum i64 value. -/
theorem advance_clock_by_overflow :
    (advance_clock_by sMax 1).2.clock.epoch_start_timestamp ≠
      sMax.clock.epoch_start_timestamp + 1 ∧
    (advance_clock_by sMax 1).2.clock.epoch_start_timestamp = -9223372036854775808 := by
  constructor
  · decide
  · decide

/-- Claim C5 (amended): for every signed delta and every clock state
such that both timestamp sums stay inside the signed 64-bit range,
advance_clock_by followed by get_clock yields a clock whose
epoch_start_timestamp and unix_timestamp equal their prior values
increased by exactly the delta, and no other clock field changes; when
a sum leaves that range the i64 addition overflows and the mathematical
sum is not produced. -/
theorem advance_clock_by_exact (s : ProgramSimulator) (delta : Int)
    (h1 : -9223372036854775808 ≤ s.clock.epoch_start_timestamp + delta)
    (h2 : s.clock.epoch_start_timestamp + delta < 9223372036854775808)
    (h3 : -9223372036854775808 ≤ s.clock.unix_timestamp + delta)
    (h4 : s.clock.unix_timestamp + delta < 9223372036854775808) :
    (advance_clock_by s delta).1 = Except.ok () ∧
    get_clock (advance_clock_by s delta).2 = Except.ok (advance_clock_by s delta).2.clock ∧
    (advance_clock_by s delta).2.clock.epoch_start_timestamp =
      s.clock.epoch_start_timestamp + delta ∧
    (advance_clock_by s delta).2.clock.unix_timestamp = s.clock.unix_timestamp + delta ∧
    (advance_clock_by s delta).2.clock.slot = s.clock.slot ∧
    (advance_clock_by s delta).2.clock.epoch = s.clock.epoch ∧
    (advance_clock_by s delta).2.clock.leader_schedule_epoch =
      s.clock.leader_schedule_epoch := by
  refine ⟨rfl, rfl, ?_, ?_, rfl, rfl, rfl⟩
  · exact i64_add_eq_of_range _ _ h1 h2
  · exact i64_add_eq_of_range _ _ h3 h4

/-- Claim C5 witness: advance_clock_by_exact applied to the concrete
session s0 and the delta 5, whose timestamp sums stay in range. -/
theorem advance_clock_by_exact_witness :
    (advance_clock_by s0 5).1 = Except.ok () ∧
    get_clock (advance_clock_by s0 5).2 = Except.ok (advance_clock_by s0 5).2.clock ∧
    (advance_clock_by s0 5).2.clock.epoch_start_timestamp =
      s0.clock.epoch_start_timestamp + 5 ∧
    (advance_clock_by s0 5).2.clock.unix_timestamp = s0.clock.unix_timestamp + 5 ∧
    (advance_clock_by s0 5).2.clock.slot = s0.clock.slot ∧
    (advance_clock_by s0 5).2.clock.epoch = s0.clock.epoch ∧
    (advance_clock_by s0 5).2.clock.leader_schedule_epoch =
      s0.clock.leader_schedule_epoch :=
  advance_clock_by_exact s0 5 (by decide) (by decide) (by decide) (by decide)

/-- Claim C6: for every absolute timestamp and every clock state,
advance_clock_to followed by get_clock yields a clock whose
epoch_start_timestamp and unix_timestamp both equal that timestamp
exactly, independent of their prior values, with no other clock field
changed. -/
theorem advance_clock_to_overwrites (s : ProgramSimulator) (t : Int) :
    (advance_clock_to s t).1 = Except.ok () ∧
    get_clock (advance_clock_to s t).2 = Except.ok (advance_clock_to s t).2.clock ∧
    (advance_clock_to s t).2.clock.epoch_start_timestamp = t ∧
    (advance_clock_to s t).2.clock.unix_timestamp = t ∧
    (advance_clock_to s t).2.clock.slot = s.clock.slot ∧
    (advance_clock_to s t).2.clock.epoch = s.clock.epoch ∧
    (advance_clock_to s t).2.clock.leader_schedule_epoch = s.clock.leader_schedule_epoch :=
  ⟨rfl, rfl, rfl, rfl, rfl, rfl, rfl⟩

/-- Claim C7: for every destination address and lamport amount, a
successful airdrop submits a transaction whose only caller instruction
is the system transfer of that amount from the session default payer to
the destination (after the compute-budget instruction), and returns the
first signature of that submitted transaction. -/
theorem airdrop_spec (s : ProgramSimulator) (dst : Pubkey) (lamports : Nat)
    (sig : Signature) (s2 : ProgramSimulator)
    (h : airdrop s dst lamports = (Except.ok sig, s2)) :
    ∃ tx, s2.submitted = s.submitted ++ [tx] ∧
      tx.instructions =
        [set_compute_unit_limit 2000000, system_transfer s.payer.pubkey dst lamports] ∧
      sig = tx.signatures.headI := by
  unfold airdrop process_ix_with_default_compute_limit at h
  obtain ⟨b, tx, l2, hr, hb, hx, hsig, hs2⟩ :=
    process_ixs_ok_elim s [system_transfer s.payer.pubkey dst lamports] [] none sig s2 h
  have heq := build_ok_eval s [system_transfer s.payer.pubkey dst lamports] [] none b hr
  rw [hb] at heq
  simp only [Prod.mk.injEq, Except.ok.injEq] at heq
  refine ⟨tx, ?_, ?_, hsig⟩
  · rw [hs2]
  · rw [heq.1]

/-- Claim C7 witness: airdrop_spec applied to the concrete airdrop of
1000 lamports from s0 to address 600. -/
theorem airdrop_spec_witness :
    ∃ tx, sA.submitted = s0.submitted ++ [tx] ∧
      tx.instructions =
        [set_compute_unit_limit 2000000, system_transfer s0.payer.pubkey 600 1000] ∧
      sig500 = tx.signatures.headI :=
  airdrop_spec s0 600 1000 sig500 sA (by decide)

/-- Claim C8: a successful get_funded_keypair returns the freshly
generated keypair and funds it by an airdrop of exactly
LAMPORTS_PER_SOL (one SOL): provided the fresh address held no account
before, a balance query immediately afterwards returns exactly
LAMPORTS_PER_SOL, and the submitted transaction carries exactly the one
system transfer of LAMPORTS_PER_SOL from the session default payer to
the new address. -/
theorem get_funded_keypair_spec (s : ProgramSimulator) (kp : Keypair)
    (s2 : ProgramSimulator)
    (h : get_funded_keypair s = (Except.ok kp, s2))
    (hfresh : ledger_lookup s.ledger kp.pubkey = none) :
    kp.pubkey = fresh_pubkey s.fresh_counter ∧
    get_balance s2 kp.pubkey = Except.ok LAMPORTS_PER_SOL ∧
    ∃ tx, s2.submitted = s.submitted ++ [tx] ∧
      tx.instructions =
        [set_compute_unit_limit 2000000,
         system_transfer s.payer.pubkey kp.pubkey LAMPORTS_PER_SOL] := by
  unfold get_funded_keypair at h
  set s1 : ProgramSimulator := { s with fresh_counter := s.fresh_counter + 1 } with hs1def
  cases hA : airdrop s1 (fresh_pubkey s.fresh_counter) LAMPORTS_PER_SOL with
  | mk res s2x =>
      rw [hA] at h
      cases res with
      | error e => simp at h
      | ok u =>
          simp only [Prod.mk.injEq, Except.ok.injEq] at h
          obtain ⟨hkp, hs2x⟩ := h
          subst hkp
          subst hs2x
          unfold airdrop process_ix_with_default_compute_limit at hA
          obtain ⟨b, tx, l2, hr, hb, hx, hsig, hs2⟩ :=
            process_ixs_ok_elim s1
              [system_transfer s1.payer.pubkey (fresh_pubkey s.fresh_counter) LAMPORTS_PER_SOL]
              [] none u s2x hA
          have heq := build_ok_eval s1
            [system_transfer s1.payer.pubkey (fresh_pubkey s.fresh_counter) LAMPORTS_PER_SOL]
            [] none b hr
          rw [hb] at heq
          simp only [Prod.mk.injEq, Except.ok.injEq] at heq
          rw [heq.1] at hx
          have hfresh1 : ledger_lookup s1.ledger (fresh_pubkey s.fresh_counter) = none := by
            rw [hs1def]
            simpa using hfresh
          have hl := exec_airdrop_lamports s1.ledger s1.payer.pubkey
            (fresh_pubkey s.fresh_counter) l2 hx hfresh1
          refine ⟨rfl, ?_, tx, ?_, ?_⟩
          · rw [hs2]
            unfold get_balance
            simp only [hs1def] at hl ⊢
            simpa using hl
          · rw [hs2]
          · rw [heq.1]

/-- Claim C8 witness: get_funded_keypair_spec applied to the concrete
session s0, whose ledger holds no account at the fresh address. -/
theorem get_funded_keypair_spec_witness :
    kpF.pubkey = fresh_pubkey s0.fresh_counter ∧
    get_balance sF kpF.pubkey = Except.ok LAMPORTS_PER_SOL ∧
    ∃ tx, sF.submitted = s0.submitted ++ [tx] ∧
      tx.instructions =
        [set_compute_unit_limit 2000000,
         system_transfer s0.payer.pubkey kpF.pubkey LAMPORTS_PER_SOL] :=
  get_funded_keypair_spec s0 kpF sF (by decide) (by decide)

/-- Claim C9: into_transaction_error is exactly
into_transaction_error_with_index at index 0, and for every index and
every domain error the result of into_transaction_error_with_index is
the InstructionError variant of TransactionError carrying the given
index and the wire-level code derived from the error through the
ProgramError and u64 conversion chain; both are pure functions of their
arguments (they are plain definitions over their inputs, touching no
session state). -/
theorem into_transaction_error_default_index :
    ∀ (error : AnchorLangError) (i : Nat),
      into_transaction_error error = into_transaction_error_with_index 0 error ∧
      into_transaction_error_with_index i error =
        TransactionError.InstructionError i
          (instruction_error_from_u64
            (program_error_to_u64 (program_error_from_anchor error))) :=
  fun _ _ => ⟨rfl, rfl⟩
